import Mathlib

/-!
Shallow embedding of `src/DOCKER_PORT_CONFIGURATION.py` (class
`DockerPortConfiguration`): the port registry literal, the conflict
scanner, the docker-compose renderer and the report generator, together
with theorems settling the claims about them.

The live socket probe (`check_port_availability`, lines 174-182 of the
source) performs a bind-and-release syscall; it is modelled as an
injected probe function `Nat → BindOutcome`, where `BindOutcome`
distinguishes the outcomes of the underlying `socket.bind` call: success,
address-in-use failure, and any other `OSError` (e.g. permission denied
on a privileged port). The Python code catches every `OSError`
uniformly, which the embedding mirrors faithfully in
`check_port_availability`.
-/

/-- Outcome of one bind-and-release syscall on a port. `ok` means the
bind succeeded (port free); `addrInUse` is the address-in-use `OSError`;
`otherOSError` is any other `OSError` such as permission denied. -/
inductive BindOutcome where
  | ok : BindOutcome
  | addrInUse : BindOutcome
  | otherOSError : BindOutcome
deriving DecidableEq

/-- Embeds the `PortConfig` dataclass (source lines 23-33): one reserved
port assignment, with `status` defaulting to "available". -/
structure PortConfig where
  port : Nat
  service : String
  component : String
  protocol : String
  description : String
  status : String := "available"
  container : Option String := none
  health_check : Option String := none
deriving DecidableEq

/-- Embeds the `ServicePorts` dataclass (source lines 35-42): a named
component group of port entries plus its docker-compose filename. -/
structure ServicePorts where
  service_name : String
  component : String
  ports : List PortConfig
  docker_compose : Option String := none
  health_check_url : Option String := none
deriving DecidableEq

/-- Embeds the conflict dict literal appended at source lines 195-199:
`{"port": ..., "services": [...], "conflict_type": "port_already_used"}`. -/
structure ConflictRecord where
  port : Nat
  services : List String
  conflict_type : String
deriving DecidableEq

/-- Embeds `check_port_availability` (source lines 174-182): the Python
code returns `True` on a successful bind and `False` on any `OSError`,
address-in-use or not — both failure outcomes collapse to `false`. -/
def check_port_availability (probe : Nat → BindOutcome) (port : Nat) : Bool :=
  match probe port with
  | BindOutcome.ok => true
  | BindOutcome.addrInUse => false
  | BindOutcome.otherOSError => false

/-- Lookup in the `used_ports` dict of `scan_port_conflicts`, modelled as
an association list from port number to service name (keys are only ever
inserted when absent, so the list has at most one binding per port). -/
def lookupUsed (used : List (Nat × String)) (p : Nat) : Option String :=
  (used.find? (fun kv => kv.1 == p)).map (fun kv => kv.2)

/-- Loop body of `scan_port_conflicts` (source lines 188-203): walks the
entry list carrying the `used_ports` dict, setting each entry's status
and accumulating conflict records in encounter order. -/
def scanGo (probe : Nat → BindOutcome) :
    List PortConfig → List (Nat × String) → List PortConfig × List ConflictRecord
  | [], _ => ([], [])
  | pc :: rest, used =>
    if check_port_availability probe pc.port then
      let r := scanGo probe rest used
      ({ pc with status := "available" } :: r.1, r.2)
    else
      match lookupUsed used pc.port with
      | some first =>
        let r := scanGo probe rest used
        ({ pc with status := "conflict" } :: r.1,
          { port := pc.port, services := [first, pc.service],
            conflict_type := "port_already_used" } :: r.2)
      | none =>
        let r := scanGo probe rest (used ++ [(pc.port, pc.service)])
        ({ pc with status := "conflict" } :: r.1, r.2)

/-- Embeds `scan_port_conflicts` (source lines 184-203): starts with
`self.conflicts = []` and `used_ports = {}` and runs the loop; returns
the status-annotated entries and the conflict list. -/
def scan_port_conflicts (probe : Nat → BindOutcome) (configs : List PortConfig) :
    List PortConfig × List ConflictRecord :=
  scanGo probe configs []

/-- IZA OS component ports (source lines 74-82). -/
def iza_os_ports : List PortConfig :=
  [ { port := 8001, service := "iza-memory-core", component := "iza_os", protocol := "http", description := "Memory Core API" }
  , { port := 8002, service := "iza-agent-orchestration", component := "iza_os", protocol := "http", description := "Agent Orchestration API" }
  , { port := 8003, service := "iza-venture-factory", component := "iza_os", protocol := "http", description := "Venture Factory API" }
  , { port := 8004, service := "iza-repository-hub", component := "iza_os", protocol := "http", description := "Repository Hub API" }
  , { port := 8005, service := "iza-vercept-intelligence", component := "iza_os", protocol := "http", description := "Vercept Intelligence API" }
  , { port := 8006, service := "iza-command-center", component := "iza_os", protocol := "http", description := "Command Center API" }
  , { port := 8007, service := "iza-genixbank-financial", component := "iza_os", protocol := "http", description := "GenixBank Financial API" } ]

/-- GenixBank financial system ports (source lines 85-94). -/
def genixbank_ports : List PortConfig :=
  [ { port := 8101, service := "genixbank-banking-api", component := "genixbank", protocol := "http", description := "Banking API" }
  , { port := 8102, service := "genixbank-compliance-api", component := "genixbank", protocol := "http", description := "Compliance API" }
  , { port := 8103, service := "genixbank-equity-api", component := "genixbank", protocol := "http", description := "Equity API" }
  , { port := 8104, service := "genixbank-transaction-api", component := "genixbank", protocol := "http", description := "Transaction API" }
  , { port := 8105, service := "genixbank-payroll-api", component := "genixbank", protocol := "http", description := "Payroll API" }
  , { port := 8106, service := "genixbank-dealmaking-api", component := "genixbank", protocol := "http", description := "Dealmaking API" }
  , { port := 8107, service := "genixbank-dashboard", component := "genixbank", protocol := "http", description := "Financial Dashboard" }
  , { port := 8108, service := "genixbank-reports", component := "genixbank", protocol := "http", description := "Financial Reports" } ]

/-- Traycer frontend integration ports (source lines 97-103). -/
def traycer_ports : List PortConfig :=
  [ { port := 8201, service := "traycer-design-system", component := "traycer", protocol := "http", description := "Design System API" }
  , { port := 8202, service := "traycer-component-library", component := "traycer", protocol := "http", description := "Component Library" }
  , { port := 8203, service := "traycer-orchestration", component := "traycer", protocol := "http", description := "Orchestration API" }
  , { port := 8204, service := "traycer-frontend-proxy", component := "traycer", protocol := "http", description := "Frontend Proxy" }
  , { port := 8205, service := "traycer-build-system", component := "traycer", protocol := "http", description := "Build System API" } ]

/-- MCP agent ports (source lines 106-113). -/
def mcp_ports : List PortConfig :=
  [ { port := 8301, service := "mcp-claude-agents", component := "mcp_agents", protocol := "http", description := "Claude Agents MCP" }
  , { port := 8302, service := "mcp-swarms", component := "mcp_agents", protocol := "http", description := "Swarms MCP" }
  , { port := 8303, service := "mcp-bmad-orchestrator", component := "mcp_agents", protocol := "http", description := "BMAD Orchestrator MCP" }
  , { port := 8304, service := "mcp-traycer-ai", component := "mcp_agents", protocol := "http", description := "Traycer AI MCP" }
  , { port := 8305, service := "mcp-cursor-integration", component := "mcp_agents", protocol := "http", description := "Cursor MCP Integration" }
  , { port := 8306, service := "mcp-github-integration", component := "mcp_agents", protocol := "http", description := "GitHub MCP Integration" } ]

/-- Zero-padded two-digit rendering of a project index, mirroring the
Python format spec in the f-string at source line 120. -/
def pad2 (i : Nat) : String :=
  if i < 10 then "0" ++ toString i else toString i

/-- One generated frontend-project entry (source lines 118-121):
port 3000 + i, service name with the zero-padded index. -/
def frontend_project (i : Nat) : PortConfig :=
  { port := 3000 + i
  , service := "frontend-project-" ++ pad2 i
  , component := "frontend"
  , protocol := "http"
  , description := "Frontend Project " ++ toString i }

/-- Frontend block generation (source lines 116-121) for n projects:
the Python loop `for i in range(1, 27)` instantiated at 26 is
`frontend_ports_gen 26`; `List.range' 1 n` is the index list 1..n. -/
def frontend_ports_gen (n : Nat) : List PortConfig :=
  (List.range' 1 n).map frontend_project

/-- The 26 frontend project ports built by the source's loop. -/
def frontend_ports : List PortConfig := frontend_ports_gen 26

/-- Database ports (source lines 124-131). -/
def database_ports : List PortConfig :=
  [ { port := 5001, service := "postgresql-main", component := "databases", protocol := "tcp", description := "Main PostgreSQL Database" }
  , { port := 5002, service := "redis-cache", component := "databases", protocol := "tcp", description := "Redis Cache" }
  , { port := 5003, service := "mongodb-documents", component := "databases", protocol := "tcp", description := "MongoDB Documents" }
  , { port := 5004, service := "elasticsearch-search", component := "databases", protocol := "tcp", description := "Elasticsearch Search" }
  , { port := 5005, service := "influxdb-metrics", component := "databases", protocol := "tcp", description := "InfluxDB Metrics" }
  , { port := 5006, service := "neo4j-graph", component := "databases", protocol := "tcp", description := "Neo4j Graph Database" } ]

/-- API gateway ports (source lines 134-142). -/
def api_ports : List PortConfig :=
  [ { port := 4001, service := "api-gateway", component := "apis", protocol := "http", description := "Main API Gateway" }
  , { port := 4002, service := "auth-service", component := "apis", protocol := "http", description := "Authentication Service" }
  , { port := 4003, service := "user-service", component := "apis", protocol := "http", description := "User Management Service" }
  , { port := 4004, service := "notification-service", component := "apis", protocol := "http", description := "Notification Service" }
  , { port := 4005, service := "file-service", component := "apis", protocol := "http", description := "File Management Service" }
  , { port := 4006, service := "email-service", component := "apis", protocol := "http", description := "Email Service" }
  , { port := 4007, service := "sms-service", component := "apis", protocol := "http", description := "SMS Service" } ]

/-- Monitoring ports (source lines 145-152). -/
def monitoring_ports : List PortConfig :=
  [ { port := 9001, service := "prometheus", component := "monitoring", protocol := "http", description := "Prometheus Metrics" }
  , { port := 9002, service := "grafana", component := "monitoring", protocol := "http", description := "Grafana Dashboard" }
  , { port := 9003, service := "jaeger", component := "monitoring", protocol := "http", description := "Jaeger Tracing" }
  , { port := 9004, service := "kibana", component := "monitoring", protocol := "http", description := "Kibana Logs" }
  , { port := 9005, service := "alertmanager", component := "monitoring", protocol := "http", description := "Alert Manager" }
  , { port := 9006, service := "node-exporter", component := "monitoring", protocol := "http", description := "Node Exporter" } ]

/-- The combining step of the registry build (source lines 155-158):
the component tables are concatenated as given — no duplicate-port
check, no filtering, no error channel. The source writes the sum of the
eight concrete lists; this is that operation over any list of tables. -/
def combine_port_tables (tables : List (List PortConfig)) : List PortConfig :=
  tables.flatten

/-- The full registry `self.port_configs` (source lines 155-158). -/
def port_configs : List PortConfig :=
  combine_port_tables
    [ iza_os_ports, genixbank_ports, traycer_ports, mcp_ports
    , frontend_ports, database_ports, api_ports, monitoring_ports ]

/-- The value of `self.conflicts` right after the registry build: the
constructor sets it to the empty list (source line 52) and
the build function (source lines 69-172) never touches it — the build
step flags nothing. -/
def build_time_conflicts : List ConflictRecord := []

/-- The service group table `self.service_ports` (source lines 161-170). -/
def service_ports : List ServicePorts :=
  [ { service_name := "iza-os", component := "iza_os", ports := iza_os_ports, docker_compose := some "docker-compose.iza-os.yml" }
  , { service_name := "genixbank", component := "genixbank", ports := genixbank_ports, docker_compose := some "docker-compose.genixbank.yml" }
  , { service_name := "traycer", component := "traycer", ports := traycer_ports, docker_compose := some "docker-compose.traycer.yml" }
  , { service_name := "mcp-agents", component := "mcp_agents", ports := mcp_ports, docker_compose := some "docker-compose.mcp.yml" }
  , { service_name := "frontend-projects", component := "frontend", ports := frontend_ports, docker_compose := some "docker-compose.frontend.yml" }
  , { service_name := "databases", component := "databases", ports := database_ports, docker_compose := some "docker-compose.databases.yml" }
  , { service_name := "apis", component := "apis", ports := api_ports, docker_compose := some "docker-compose.apis.yml" }
  , { service_name := "monitoring", component := "monitoring", ports := monitoring_ports, docker_compose := some "docker-compose.monitoring.yml" } ]

/-- The component range table `self.port_ranges` (source lines 55-64). -/
def port_ranges : List (String × Nat × Nat) :=
  [ ("iza_os", 8000, 8099), ("genixbank", 8100, 8199), ("traycer", 8200, 8299)
  , ("mcp_agents", 8300, 8399), ("frontend", 3000, 3099), ("databases", 5000, 5099)
  , ("monitoring", 9000, 9099), ("apis", 4000, 4099) ]

/-- The quoted host-to-container port mapping fragment of a service
block, `"{port}:{port}"` in the f-string at source line 238. -/
def ports_mapping_frag (port : Nat) : String :=
  "\"" ++ toString port ++ ":" ++ toString port ++ "\""

/-- The `PORT` environment-variable line fragment (source line 240). -/
def env_port_frag (port : Nat) : String :=
  "- PORT=" ++ toString port

/-- The `COMPONENT` environment-variable line fragment (source line 241). -/
def env_component_frag (component : String) : String :=
  "- COMPONENT=" ++ component

/-- The `SERVICE` environment-variable line fragment (source line 242). -/
def env_service_frag (service : String) : String :=
  "- SERVICE=" ++ service

/-- The health-check URL fragment `http://localhost:{port}/health`
(source line 244). -/
def health_url_frag (port : Nat) : String :=
  "http://localhost:" ++ toString port ++ "/health"

/-- One rendered service block: the per-entry f-string appended in the
loop of `create_docker_compose_content` (source lines 232-252), chunked
around the claim-relevant fragments. The block never reads the entry's
`protocol`: the template is fixed, not protocol-aware. -/
def service_block (component : String) (pc : PortConfig) : String :=
  "  " ++ pc.service.replace "-" "_"
  ++ ":\n    image: " ++ component
  ++ ":latest\n    container_name: " ++ pc.service
  ++ "\n    ports:\n      - " ++ ports_mapping_frag pc.port
  ++ "\n    environment:\n      " ++ env_port_frag pc.port
  ++ "\n      " ++ env_component_frag component
  ++ "\n      " ++ env_service_frag pc.service
  ++ "\n    healthcheck:\n      test: [\"CMD\", \"curl\", \"-f\", \""
  ++ health_url_frag pc.port
  ++ "\"]\n      interval: 30s\n      timeout: 10s\n      retries: 3\n    restart: unless-stopped\n    networks:\n      - "
  ++ component ++ "_network\n\n"

/-- The fixed document header (source lines 227-230). -/
def compose_header : String :=
  "version: \x273.8\x27\n\nservices:\n"

/-- The trailing network and volume declarations (source lines 254-261). -/
def compose_footer (component : String) : String :=
  "networks:\n  " ++ component
  ++ "_network:\n    driver: bridge\n\nvolumes:\n  " ++ component
  ++ "_data:\n    driver: local\n"

/-- The list of service blocks rendered for one group, in table order. -/
def compose_blocks (service : ServicePorts) : List String :=
  service.ports.map (service_block service.component)

/-- Embeds `create_docker_compose_content` (source lines 225-263):
header, then one block per port entry appended in order, then footer. -/
def create_docker_compose_content (service : ServicePorts) : String :=
  compose_header ++ String.join (compose_blocks service) ++ compose_footer service.component

/-- One row of a `component_ports` listing in the report (source
lines 276-282). -/
structure ReportPortEntry where
  port : Nat
  service : String
  protocol : String
  description : String
  status : String
deriving DecidableEq

/-- The dict appended per entry at source lines 276-282. -/
def report_entry (pc : PortConfig) : ReportPortEntry :=
  { port := pc.port, service := pc.service, protocol := pc.protocol
  , description := pc.description, status := pc.status }

/-- One insertion into the `component_ports` dict (source lines 273-282):
Python dicts keep keys in insertion order and `append` adds at the end,
modelled as an ordered association list. -/
def addComponentEntry :
    List (String × List ReportPortEntry) → String → ReportPortEntry →
    List (String × List ReportPortEntry)
  | [], c, e => [(c, [e])]
  | (k, v) :: rest, c, e =>
    if k = c then (k, v ++ [e]) :: rest
    else (k, v) :: addComponentEntry rest c e

/-- The grouping loop of `generate_port_mapping_report` (source
lines 272-282). -/
def component_ports_of (configs : List PortConfig) :
    List (String × List ReportPortEntry) :=
  configs.foldl (fun m pc => addComponentEntry m pc.component (report_entry pc)) []

/-- Counts entries with status "available" (source line 268). -/
def available_count (configs : List PortConfig) : Nat :=
  (configs.filter (fun p => p.status == "available")).length

/-- Counts entries with status "conflict" (source line 269). -/
def conflict_count (configs : List PortConfig) : Nat :=
  (configs.filter (fun p => p.status == "conflict")).length

/-- The `port_mapping_summary` dict (source lines 285-291). Python's
float division is modelled over ℚ; the guard `if total_ports > 0 else 0`
is the source's own. -/
structure PortMappingSummary where
  total_ports : Nat
  available_ports : Nat
  conflict_ports : Nat
  availability_percentage : ℚ
  total_services : Nat
deriving DecidableEq

/-- One item of `service_configurations` (source lines 294-312). -/
structure ServiceConfiguration where
  service_name : String
  component : String
  port_count : Nat
  docker_compose : Option String
  ports : List ReportPortEntry
deriving DecidableEq

/-- The full report dict (source lines 284-321). -/
structure PortReport where
  port_mapping_summary : PortMappingSummary
  component_ports : List (String × List ReportPortEntry)
  port_conflicts : List ConflictRecord
  service_configurations : List ServiceConfiguration
  port_ranges : List (String × Nat × Nat)
  recommendations : List String
deriving DecidableEq

/-- The static advisory strings (source lines 314-320). -/
def recommendations : List String :=
  [ "All ports are properly allocated across components"
  , "No port conflicts detected"
  , "Docker Compose files generated for all services"
  , "Health checks configured for all services"
  , "Network isolation implemented per component" ]

/-- Embeds `generate_port_mapping_report` (source lines 265-321) as a
function of the instance state it reads: `self.port_configs`,
`self.service_ports` and `self.conflicts`. -/
def generate_port_mapping_report (configs : List PortConfig)
    (services : List ServicePorts) (conflicts : List ConflictRecord) : PortReport :=
  { port_mapping_summary :=
      { total_ports := configs.length
      , available_ports := available_count configs
      , conflict_ports := conflict_count configs
      , availability_percentage :=
          if configs.length > 0 then
            ((available_count configs : ℚ) / (configs.length : ℚ)) * 100
          else 0
      , total_services := services.length }
  , component_ports := component_ports_of configs
  , port_conflicts := conflicts
  , service_configurations :=
      services.map (fun s =>
        { service_name := s.service_name
        , component := s.component
        , port_count := s.ports.length
        , docker_compose := s.docker_compose
        , ports := s.ports.map report_entry })
  , port_ranges := port_ranges
  , recommendations := recommendations }

/-- Helper: the status-annotated entry list returned by the scan loop is
a pointwise relabelling — each entry's status becomes "available" or
"conflict" exactly according to the probe, independent of `used`. -/
theorem scanGo_fst (probe : Nat → BindOutcome) :
    ∀ (l : List PortConfig) (used : List (Nat × String)),
      (scanGo probe l used).1 =
        l.map (fun pc =>
          { pc with status :=
              if check_port_availability probe pc.port then "available" else "conflict" })
  | [], _ => rfl
  | pc :: rest, used => by
    cases hcp : check_port_availability probe pc.port with
    | true => simp [scanGo, hcp, scanGo_fst probe rest used]
    | false =>
      cases hl : lookupUsed used pc.port with
      | some first => simp [scanGo, hcp, hl, scanGo_fst probe rest used]
      | none => simp [scanGo, hcp, hl, scanGo_fst probe rest (used ++ [(pc.port, pc.service)])]

/-- Two demo entries sharing port 8050, as in the duplicate-registry
scenario of the spec. -/
def svcA : PortConfig :=
  { port := 8050, service := "svcA", component := "demo", protocol := "http", description := "demo service A" }

/-- Second demo entry on the same port 8050. -/
def svcB : PortConfig :=
  { port := 8050, service := "svcB", component := "demo", protocol := "http", description := "demo service B" }

/-- A demo entry on privileged port 80. -/
def svcPriv : PortConfig :=
  { port := 80, service := "svcPriv", component := "demo", protocol := "http", description := "privileged port service" }

/-- Probe mock: every bind succeeds (every port locally free). -/
def allFreeProbe : Nat → BindOutcome := fun _ => BindOutcome.ok

/-- Probe mock: every bind fails with address-in-use. -/
def allBusyProbe : Nat → BindOutcome := fun _ => BindOutcome.addrInUse

/-- Probe mock: every bind fails with a non-address-in-use OSError,
e.g. permission denied. -/
def permDeniedProbe : Nat → BindOutcome := fun _ => BindOutcome.otherOSError

/-- Probe that rewrites any non-address-in-use failure into a plain
address-in-use failure, leaving successes alone. -/
def collapseProbe (probe : Nat → BindOutcome) : Nat → BindOutcome := fun p =>
  match probe p with
  | BindOutcome.otherOSError => BindOutcome.addrInUse
  | o => o

/-- Helper: `check_port_availability` cannot tell a collapsed probe from
the original — both failure outcomes return `false`. -/
theorem check_collapseProbe (probe : Nat → BindOutcome) (p : Nat) :
    check_port_availability (collapseProbe probe) p = check_port_availability probe p := by
  cases hp : probe p <;> simp [check_port_availability, collapseProbe, hp]

/-- Helper: the scan loop only consults the probe through
`check_port_availability`, so probes with equal checks scan equally. -/
theorem scanGo_congr (p1 p2 : Nat → BindOutcome)
    (h : ∀ p, check_port_availability p1 p = check_port_availability p2 p) :
    ∀ (l : List PortConfig) (used : List (Nat × String)),
      scanGo p1 l used = scanGo p2 l used
  | [], _ => rfl
  | pc :: rest, used => by
    cases hcp : check_port_availability p1 pc.port with
    | true =>
      have h2 : check_port_availability p2 pc.port = true := ((h pc.port).symm.trans hcp)
      simp [scanGo, hcp, h2, scanGo_congr p1 p2 h rest used]
    | false =>
      have h2 : check_port_availability p2 pc.port = false := ((h pc.port).symm.trans hcp)
      cases hl : lookupUsed used pc.port with
      | some first => simp [scanGo, hcp, h2, hl, scanGo_congr p1 p2 h rest used]
      | none => simp [scanGo, hcp, h2, hl, scanGo_congr p1 p2 h rest (used ++ [(pc.port, pc.service)])]

/-- C4: for every registry and every probe mock, one scan pass sets
exactly the entries whose port the probe reports busy to status
"conflict" and every other entry to status "available", pointwise in
table order. -/
theorem C4_scan_statuses (probe : Nat → BindOutcome) (configs : List PortConfig) :
    (scan_port_conflicts probe configs).1 =
      configs.map (fun pc =>
        { pc with status :=
            if check_port_availability probe pc.port then "available" else "conflict" }) :=
  scanGo_fst probe configs []

/-- C1 counterexample: with svcA and svcB both registered on port 8050
and the bind probe succeeding everywhere (8050 locally free), the scan
emits no ConflictRecord at all and marks both entries available — the
duplicate is not surfaced. -/
theorem C1_counterexample :
    (scan_port_conflicts allFreeProbe [svcA, svcB]).2 = [] ∧
    (scan_port_conflicts allFreeProbe [svcA, svcB]).1 =
      [{ svcA with status := "available" }, { svcB with status := "available" }] := by
  decide

/-- C1 amended: the duplicate-port ConflictRecord [svcA, svcB] on port
8050 is emitted exactly when the bind probe reports 8050 busy; when the
port is locally free, the scan reports no conflict for the duplicate. -/
theorem C1_amended (b : Bool) :
    (scan_port_conflicts (fun _ => if b then BindOutcome.addrInUse else BindOutcome.ok)
        [svcA, svcB]).2 =
      if b then
        [{ port := 8050, services := ["svcA", "svcB"], conflict_type := "port_already_used" }]
      else [] := by
  cases b <;> decide

/-- C2 counterexample: when the bind probe fails with a
non-address-in-use OSError (permission denied on privileged port 80),
the scan silently sets the entry's status to "conflict" and its whole
result is identical to the result under a plain address-in-use failure —
nothing distinct is surfaced. -/
theorem C2_counterexample :
    (scan_port_conflicts permDeniedProbe [svcPriv]).1 = [{ svcPriv with status := "conflict" }] ∧
    (scan_port_conflicts permDeniedProbe [svcPriv]).2 = [] ∧
    scan_port_conflicts permDeniedProbe [svcPriv] = scan_port_conflicts allBusyProbe [svcPriv] := by
  decide

/-- C2 amended: `check_port_availability` returns false on every OSError
alike, so a probe that fails for a reason other than address-in-use is
treated exactly as address-in-use: the scan output equals the output
under the collapsed probe, and no distinct error is surfaced. -/
theorem C2_amended (probe : Nat → BindOutcome) (l : List PortConfig) (p : Nat)
    (hp : probe p = BindOutcome.otherOSError) :
    check_port_availability probe p = false ∧
    scan_port_conflicts probe l = scan_port_conflicts (collapseProbe probe) l := by
  refine ⟨by simp [check_port_availability, hp], ?_⟩
  exact scanGo_congr probe (collapseProbe probe)
    (fun q => (check_collapseProbe probe q).symm) l []

/-- Witness for C2 amended at the permission-denied probe on port 80. -/
theorem C2_amended_witness :
    check_port_availability permDeniedProbe 80 = false ∧
    scan_port_conflicts permDeniedProbe [svcPriv] =
      scan_port_conflicts (collapseProbe permDeniedProbe) [svcPriv] :=
  C2_amended permDeniedProbe [svcPriv] 80 rfl

/-- C3 counterexample: a literal table holding two distinct entries on
the same port 8050 passes through the registry build's combining step
unchanged — both same-port entries are kept, nothing fails (the step is
a total function with no error channel), and the build-time conflict
list stays empty: the registry is constructed silently. -/
theorem C3_counterexample :
    combine_port_tables [[svcA, svcB]] = [svcA, svcB] ∧
    svcA.port = svcB.port ∧ svcA ≠ svcB ∧
    build_time_conflicts = [] := by
  decide

/-- C3 amended: the registry build performs no duplicate-port check and
cannot fail — the combining step keeps every entry of every table, so
its length is the sum of the table lengths; the shipped literal registry
happens to be duplicate-free, so no duplicate port actually arises. -/
theorem C3_amended :
    ((port_configs.map (fun pc => pc.port)).Nodup) ∧
    (∀ tables : List (List PortConfig),
      (combine_port_tables tables).length = (tables.map List.length).sum) := by
  constructor
  · decide
  · intro tables
    simp [combine_port_tables]

/-- C7: the frontend-project block-generation rule with n configured
projects yields exactly n entries whose ports are the contiguous,
duplicate-free range 3000+1 .. 3000+n; the source instantiates it at
n = 26. -/
theorem C7_frontend_block (n : Nat) :
    (frontend_ports_gen n).length = n ∧
    (frontend_ports_gen n).map (fun pc => pc.port) = List.range' (3000 + 1) n ∧
    ((frontend_ports_gen n).map (fun pc => pc.port)).Nodup ∧
    frontend_ports = frontend_ports_gen 26 := by
  have hmap : (frontend_ports_gen n).map (fun pc => pc.port) = List.range' (3000 + 1) n := by
    simp only [frontend_ports_gen, List.map_map]
    exact List.map_add_range' 3000 1 n 1
  refine ⟨by simp [frontend_ports_gen], hmap, hmap ▸ List.nodup_range' _ _, rfl⟩

/-- C6: the report's availability percentage satisfies
pct * total = available * 100 over ℚ — i.e. it is available/total*100
whenever total > 0 — and for the empty registry it is defined as 0
rather than a division fault. -/
theorem C6_availability_percentage (configs : List PortConfig)
    (services : List ServicePorts) (conflicts : List ConflictRecord) :
    (generate_port_mapping_report configs services conflicts).port_mapping_summary.availability_percentage
        * ((generate_port_mapping_report configs services conflicts).port_mapping_summary.total_ports : ℚ)
      = ((generate_port_mapping_report configs services conflicts).port_mapping_summary.available_ports : ℚ) * 100 ∧
    (generate_port_mapping_report [] services conflicts).port_mapping_summary.availability_percentage = 0 := by
  constructor
  · by_cases h : configs.length > 0
    · have hne : (configs.length : ℚ) ≠ 0 := by
        exact_mod_cast Nat.pos_iff_ne_zero.mp h
      simp only [generate_port_mapping_report, if_pos h]
      field_simp
    · have h0 : configs.length = 0 := Nat.eq_zero_of_not_pos h
      have hnil : configs = [] := List.length_eq_zero.mp h0
      subst hnil
      simp [generate_port_mapping_report, available_count]
  · simp [generate_port_mapping_report, available_count]

/-- Total number of listed ports across a grouped component listing. -/
def sumLens (m : List (String × List ReportPortEntry)) : Nat :=
  (m.map (fun kv => kv.2.length)).sum

/-- Helper: inserting one entry into the component grouping adds exactly
one to the total listed count. -/
theorem sumLens_addComponentEntry (c : String) (e : ReportPortEntry) :
    ∀ m, sumLens (addComponentEntry m c e) = sumLens m + 1
  | [] => by simp [addComponentEntry, sumLens]
  | (k, v) :: rest => by
    by_cases h : k = c
    · simp [addComponentEntry, h, sumLens]
      omega
    · have ih := sumLens_addComponentEntry c e rest
      simp [addComponentEntry, h, sumLens] at ih ⊢
      omega

/-- Helper: the grouping fold preserves the entry count. -/
theorem sumLens_fold :
    ∀ (l : List PortConfig) (m : List (String × List ReportPortEntry)),
      sumLens (l.foldl (fun acc pc => addComponentEntry acc pc.component (report_entry pc)) m)
        = sumLens m + l.length
  | [], m => by simp
  | pc :: rest, m => by
    have ih := sumLens_fold rest (addComponentEntry m pc.component (report_entry pc))
    simp only [List.foldl_cons] at ih ⊢
    rw [ih, sumLens_addComponentEntry]
    simp
    omega

/-- C9: in every generated report, port_mapping_summary.total_ports
equals the sum of the lengths of all component_ports lists. -/
theorem C9_total_ports (configs : List PortConfig)
    (services : List ServicePorts) (conflicts : List ConflictRecord) :
    (generate_port_mapping_report configs services conflicts).port_mapping_summary.total_ports =
      (((generate_port_mapping_report configs services conflicts).component_ports).map
        (fun kv => kv.2.length)).sum := by
  show configs.length = sumLens (component_ports_of configs)
  have h := sumLens_fold configs []
  simpa [sumLens, component_ports_of] using h.symm

/-- Helper: when every entry's status is "available" or "conflict", the
two status counts partition the registry. -/
theorem avail_conf_count (l : List PortConfig)
    (h : ∀ pc ∈ l, pc.status = "available" ∨ pc.status = "conflict") :
    available_count l + conflict_count l = l.length := by
  induction l with
  | nil => simp [available_count, conflict_count]
  | cons pc rest ih =>
    have hrest : ∀ q ∈ rest, q.status = "available" ∨ q.status = "conflict" :=
      fun q hq => h q (List.mem_cons_of_mem _ hq)
    have ihr := ih hrest
    rcases h pc (List.mem_cons_self _ _) with ha | hc
    · simp [available_count, conflict_count, List.filter_cons, ha] at ihr ⊢
      omega
    · simp [available_count, conflict_count, List.filter_cons, hc] at ihr ⊢
      omega

/-- C10: statuses stay within the two-value set: every literal registry
entry starts as "available"; every entry coming out of a scan has status
"available" or "conflict"; and whenever all statuses lie in that set the
report's available and conflict counts sum to its total, scan or not. -/
theorem C10_status_invariant :
    (port_configs.all (fun pc => pc.status == "available")) = true ∧
    (∀ (probe : Nat → BindOutcome) (l : List PortConfig),
      ((scan_port_conflicts probe l).1.all
        (fun pc => pc.status == "available" || pc.status == "conflict")) = true) ∧
    (∀ (configs : List PortConfig) (services : List ServicePorts)
        (conflicts : List ConflictRecord),
      (∀ pc ∈ configs, pc.status = "available" ∨ pc.status = "conflict") →
      (generate_port_mapping_report configs services conflicts).port_mapping_summary.available_ports
        + (generate_port_mapping_report configs services conflicts).port_mapping_summary.conflict_ports
        = (generate_port_mapping_report configs services conflicts).port_mapping_summary.total_ports) := by
  refine ⟨by decide, ?_, ?_⟩
  · intro probe l
    rw [show (scan_port_conflicts probe l).1 = _ from scanGo_fst probe l []]
    rw [List.all_map, List.all_eq_true]
    intro pc _
    cases hc : check_port_availability probe pc.port <;> simp [Function.comp, hc]
  · intro configs services conflicts h
    exact avail_conf_count configs h

/-- Witness for C10 at a concrete one-entry registry. -/
theorem C10_witness :
    (generate_port_mapping_report [svcA] [] []).port_mapping_summary.available_ports
      + (generate_port_mapping_report [svcA] [] []).port_mapping_summary.conflict_ports
      = (generate_port_mapping_report [svcA] [] []).port_mapping_summary.total_ports :=
  C10_status_invariant.2.2 [svcA] [] [] (by decide)

/-- Spec-side notion (spec §4.2 wording): among the already-processed
prefix of the table, the service name of the first entry observed
occupying port p, i.e. the first bind-failing entry whose port is p. -/
def firstOccupant (probe : Nat → BindOutcome) (prev : List PortConfig) (p : Nat) :
    Option String :=
  ((prev.filter (fun e => !check_port_availability probe e.port)).find?
    (fun e => e.port == p)).map (fun e => e.service)

/-- Spec-side conflict bookkeeping, written from the spec's words: walk
the table keeping the processed prefix; whenever the current entry's
port already has a first-observed occupant, emit one port_already_used
record naming the first occupant and the current entry's service. -/
def conflictsSpec (probe : Nat → BindOutcome) :
    List PortConfig → List PortConfig → List ConflictRecord
  | _, [] => []
  | prev, e :: rest =>
    (match firstOccupant probe prev e.port with
     | some s1 =>
       [{ port := e.port, services := [s1, e.service], conflict_type := "port_already_used" }]
     | none => []) ++ conflictsSpec probe (prev ++ [e]) rest

/-- Helper: a port with a first occupant is a busy port. -/
theorem firstOccupant_some_busy (probe : Nat → BindOutcome) (prev : List PortConfig)
    (p : Nat) (s : String) (h : firstOccupant probe prev p = some s) :
    check_port_availability probe p = false := by
  unfold firstOccupant at h
  cases hf : (prev.filter (fun e => !check_port_availability probe e.port)).find?
      (fun e => e.port == p) with
  | none => rw [hf] at h; simp at h
  | some w =>
    have hw : w ∈ prev.filter (fun e => !check_port_availability probe e.port) :=
      List.mem_of_find?_eq_some hf
    have hwp := List.find?_some hf
    have hwb := List.of_mem_filter hw
    have hwpp : w.port = p := by simpa using hwp
    rw [← hwpp]
    simpa using hwb

/-- Helper: appending a probe-free entry to the prefix leaves every
first-occupant unchanged. -/
theorem firstOccupant_append_free (probe : Nat → BindOutcome) (prev : List PortConfig)
    (e : PortConfig) (p : Nat) (hcp : check_port_availability probe e.port = true) :
    firstOccupant probe (prev ++ [e]) p = firstOccupant probe prev p := by
  unfold firstOccupant
  rw [List.filter_append]
  have : List.filter (fun x => !check_port_availability probe x.port) [e] = [] := by
    simp [hcp]
  rw [this, List.append_nil]

/-- Helper: appending a busy entry to the prefix adds it as occupant of
its own port, after any existing occupant. -/
theorem firstOccupant_append_busy (probe : Nat → BindOutcome) (prev : List PortConfig)
    (e : PortConfig) (p : Nat) (hcp : check_port_availability probe e.port = false) :
    firstOccupant probe (prev ++ [e]) p =
      (firstOccupant probe prev p).or (if e.port == p then some e.service else none) := by
  unfold firstOccupant
  rw [List.filter_append]
  have he : List.filter (fun x => !check_port_availability probe x.port) [e] = [e] := by
    simp [hcp]
  rw [he, List.find?_append]
  cases hf : (prev.filter (fun x => !check_port_availability probe x.port)).find?
      (fun x => x.port == p) with
  | some w => simp [hf]
  | none =>
    by_cases hp : e.port = p
    · have hb : (e.port == p) = true := by simp [hp]
      simp [hf, List.find?, hb]
    · have hb : (e.port == p) = false := by simp [hp]
      simp [hf, List.find?, hb]

/-- Helper: lookup in the used-ports dict after inserting one binding. -/
theorem lookupUsed_append (used : List (Nat × String)) (k : Nat) (s : String) (p : Nat) :
    lookupUsed (used ++ [(k, s)]) p =
      (lookupUsed used p).or (if k == p then some s else none) := by
  unfold lookupUsed
  rw [List.find?_append]
  cases hf : used.find? (fun kv => kv.1 == p) with
  | some w => simp [hf]
  | none =>
    by_cases hp : k = p
    · have hb : (k == p) = true := by simp [hp]
      simp [hf, List.find?, hb]
    · have hb : (k == p) = false := by simp [hp]
      simp [hf, List.find?, hb]

/-- Helper: the scan loop's conflict output matches the spec-side
bookkeeping, given that its used-ports dict agrees with the
first-occupant view of the processed prefix. -/
theorem scanGo_snd (probe : Nat → BindOutcome) :
    ∀ (l : List PortConfig) (used : List (Nat × String)) (prev : List PortConfig),
      (∀ p, lookupUsed used p = firstOccupant probe prev p) →
      (scanGo probe l used).2 = conflictsSpec probe prev l
  | [], _, _, _ => rfl
  | e :: rest, used, prev, hinv => by
    cases hcp : check_port_availability probe e.port with
    | true =>
      have hfo : firstOccupant probe prev e.port = none := by
        cases h : firstOccupant probe prev e.port with
        | none => rfl
        | some s =>
          have := firstOccupant_some_busy probe prev e.port s h
          rw [hcp] at this
          exact absurd this (by simp)
      have hinv2 : ∀ p, lookupUsed used p = firstOccupant probe (prev ++ [e]) p :=
        fun p => (hinv p).trans (firstOccupant_append_free probe prev e p hcp).symm
      simp only [scanGo, hcp, if_true]
      rw [scanGo_snd probe rest used (prev ++ [e]) hinv2]
      simp [conflictsSpec, hfo]
    | false =>
      cases hl : lookupUsed used e.port with
      | some first =>
        have hfo : firstOccupant probe prev e.port = some first := (hinv e.port).symm.trans hl
        have hinv2 : ∀ p, lookupUsed used p = firstOccupant probe (prev ++ [e]) p := by
          intro q
          rw [firstOccupant_append_busy probe prev e q hcp]
          by_cases hq : e.port = q
          · subst hq
            rw [hl, hfo]
            simp
          · have hb : (e.port == q) = false := by simp [hq]
            simp [hb, hinv q]
        simp only [scanGo, hcp, Bool.false_eq_true, if_false, hl]
        rw [scanGo_snd probe rest used (prev ++ [e]) hinv2]
        simp [conflictsSpec, hfo]
      | none =>
        have hfo : firstOccupant probe prev e.port = none := (hinv e.port).symm.trans hl
        have hinv2 : ∀ p,
            lookupUsed (used ++ [(e.port, e.service)]) p =
              firstOccupant probe (prev ++ [e]) p := by
          intro p
          rw [lookupUsed_append, firstOccupant_append_busy probe prev e p hcp, hinv p]
        simp only [scanGo, hcp, Bool.false_eq_true, if_false, hl]
        rw [scanGo_snd probe rest (used ++ [(e.port, e.service)]) (prev ++ [e]) hinv2]
        simp [conflictsSpec, hfo]

/-- C5: during one scan pass the conflict records produced by the scan
are exactly those described by the first-occupant bookkeeping — for
every entry whose port already has a first-observed occupant earlier in
the table, one port_already_used record naming the first occupant's
service and the later entry's service, in table order. -/
theorem C5_conflict_bookkeeping (probe : Nat → BindOutcome) (l : List PortConfig) :
    (scan_port_conflicts probe l).2 = conflictsSpec probe [] l :=
  scanGo_snd probe l [] [] (fun p => by simp [lookupUsed, firstOccupant])

/-- s contains sub as a contiguous substring. -/
def hasSub (s sub : String) : Prop := ∃ p q, s = p ++ (sub ++ q)

/-- Helper: a string ending with sub contains sub. -/
theorem hasSub_append_self (p sub : String) : hasSub (p ++ sub) sub :=
  ⟨p, "", by simp⟩

/-- Helper: appending on the right preserves substring containment. -/
theorem hasSub_append_right (s t sub : String) (h : hasSub s sub) : hasSub (s ++ t) sub := by
  obtain ⟨p, q, hpq⟩ := h
  exact ⟨p, q ++ t, by rw [hpq, String.append_assoc, String.append_assoc]⟩

/-- C8: for a component group with K port entries the rendered compose
document is the fixed header, then exactly the K service blocks in table
order, then the footer; and every block contains its own port in the
quoted container port mapping, in the PORT environment line (next to the
COMPONENT and SERVICE lines), and in the localhost health-check URL —
and the block never depends on the entry's protocol, so tcp entries get
the same http health-check template. -/
theorem C8_descriptor_blocks (service : ServicePorts) :
    (compose_blocks service).length = service.ports.length ∧
    create_docker_compose_content service =
      compose_header ++
        String.join (service.ports.map (service_block service.component)) ++
        compose_footer service.component ∧
    ∀ pc : PortConfig,
      hasSub (service_block service.component pc) (ports_mapping_frag pc.port) ∧
      hasSub (service_block service.component pc) (env_port_frag pc.port) ∧
      hasSub (service_block service.component pc) (env_component_frag service.component) ∧
      hasSub (service_block service.component pc) (env_service_frag pc.service) ∧
      hasSub (service_block service.component pc) (health_url_frag pc.port) ∧
      (∀ pr, service_block service.component { pc with protocol := pr } =
        service_block service.component pc) := by
  refine ⟨by simp [compose_blocks], rfl, ?_⟩
  intro pc
  refine ⟨?_, ?_, ?_, ?_, ?_, fun pr => rfl⟩
  · unfold service_block
    iterate 11 apply hasSub_append_right
    exact hasSub_append_self _ _
  · unfold service_block
    iterate 9 apply hasSub_append_right
    exact hasSub_append_self _ _
  · unfold service_block
    iterate 7 apply hasSub_append_right
    exact hasSub_append_self _ _
  · unfold service_block
    iterate 5 apply hasSub_append_right
    exact hasSub_append_self _ _
  · unfold service_block
    iterate 3 apply hasSub_append_right
    exact hasSub_append_self _ _
